import Mathlib

/-!
# Budget tracker accounting core: a shallow embedding

This file embeds the accounting core of a budget-tracking application
(carry-forward calculator, allocation engine, budget aggregation view) as
pure Lean functions over an explicit record store, and proves properties
of the embedded code.

Modelling conventions:
* Monetary amounts are fixed-point decimals with four fractional digits;
  they are represented as `Int` values counting ten-thousandths of a unit.
* Calendar dates carry no time of day and are compared by calendar day;
  they are represented as `Int` values of the shape `yyyymmdd`, whose
  numeric order agrees with chronological order.  A month is identified by
  the date of its first day.
* The record store is a snapshot of the three tables the accounting core
  touches: `transactions`, `monthly_budgets` and `budget_allocations`.
  Row-level security and multi-user concurrency are outside the embedding:
  each embedded operation is one request-scoped computation over one
  snapshot, exactly as the single-threaded client code runs.
-/

set_option autoImplicit false

namespace BudgetTracker

/-- A row of the `transactions` table: a money-movement record owned by a
user, optionally scoped to a household, with a kind (`"income"`,
`"expense"` or `"investment"`), a free-form category, an amount and a
calendar date. -/
structure Txn where
  user_id : String
  household_id : Option String
  type : String
  category : String
  amount : Int
  transaction_date : Int
deriving DecidableEq, Repr

/-- A row of the `monthly_budgets` table: a budget goal for a category
within a kind, with a planned amount, a month tag (`month_year`, the first
day of a month), a validity window `start_date .. end_date` (open-ended
when `end_date` is absent) and an interval label. -/
structure Budget where
  id : String
  user_id : String
  household_id : Option String
  type : String
  category : String
  planned_amount : Int
  month_year : Int
  start_date : Int
  end_date : Option Int
  interval : String
deriving DecidableEq, Repr

/-- A row of the `budget_allocations` table: a link binding an income-side
budget id to an expense-side budget id with an allocated amount, tagged
with the month it was created for and the creating user. -/
structure Alloc where
  user_id : String
  income_budget_id : String
  expense_budget_id : String
  allocated_amount : Int
  month_year : Int
deriving DecidableEq, Repr

/-- The record store snapshot: the three tables the accounting core reads
and writes. -/
structure Store where
  transactions : List Txn
  budgets : List Budget
  allocations : List Alloc
deriving DecidableEq, Repr

/-- The scope filter every query applies to a row's `household_id` column:
`.eq("household_id", h)` when a household id is given (family scope),
`.is("household_id", null)` otherwise (individual scope). -/
def scopeMatch (rowHousehold : Option String) (householdId : Option String) : Bool :=
  match householdId with
  | some h => rowHousehold == some h
  | none => rowHousehold == none

/-- Embeds `calculateCarryForward` (carryForwardCalculator module): the
per-category carry-forward for a user/household scope into the month
starting at `currentMonthStart`.  Step 1 sums income transactions of the
category strictly before the month start; step 2 collects the ids of
income budget goals of the category with `month_year` strictly before the
month start; step 3 sums the allocated amounts of every allocation whose
`income_budget_id` is among those ids (the allocation query runs only when
the id list is non-empty); the result is the positive part of
step 1 − step 3. -/
def calculateCarryForward (store : Store) (userId : String) (category : String)
    (currentMonthStart : Int) (householdId : Option String) : Int :=
  let transactions := store.transactions.filter fun t =>
    t.user_id == userId && t.category == category && t.type == "income" &&
      decide (t.transaction_date < currentMonthStart) &&
      scopeMatch t.household_id householdId
  let totalActualIncome := (transactions.map (·.amount)).sum
  let budgets := store.budgets.filter fun b =>
    b.user_id == userId && b.category == category && b.type == "income" &&
      decide (b.month_year < currentMonthStart) &&
      scopeMatch b.household_id householdId
  let totalAllocated :=
    if budgets.isEmpty then 0
    else
      let budgetIds := budgets.map (·.id)
      ((store.allocations.filter fun a =>
        budgetIds.contains a.income_budget_id).map (·.allocated_amount)).sum
  let carryForward := totalActualIncome - totalAllocated
  if carryForward > 0 then carryForward else 0

/-- Embeds `calculateTotalGlobalCarryForward` (carryForwardCalculator
module): the same computation as `calculateCarryForward` with no category
predicate, producing one aggregate figure for the scope. -/
def calculateTotalGlobalCarryForward (store : Store) (userId : String)
    (currentMonthStart : Int) (householdId : Option String) : Int :=
  let transactions := store.transactions.filter fun t =>
    t.user_id == userId && t.type == "income" &&
      decide (t.transaction_date < currentMonthStart) &&
      scopeMatch t.household_id householdId
  let totalActualIncome := (transactions.map (·.amount)).sum
  let budgets := store.budgets.filter fun b =>
    b.user_id == userId && b.type == "income" &&
      decide (b.month_year < currentMonthStart) &&
      scopeMatch b.household_id householdId
  let totalAllocated :=
    if budgets.isEmpty then 0
    else
      let budgetIds := budgets.map (·.id)
      ((store.allocations.filter fun a =>
        budgetIds.contains a.income_budget_id).map (·.allocated_amount)).sum
  let carryForward := totalActualIncome - totalAllocated
  if carryForward > 0 then carryForward else 0

/-- Claim-side reading of step 1 of the carry-forward contract: the sum of
amounts of income-kind transactions of the scope dated strictly before the
first day of the reference month, restricted to the category when one is
given. -/
def specPriorIncome (store : Store) (userId : String) (category : Option String)
    (currentMonthStart : Int) (householdId : Option String) : Int :=
  ((store.transactions.filter fun t =>
    t.user_id == userId &&
      (match category with | some c => t.category == c | none => true) &&
      t.type == "income" && decide (t.transaction_date < currentMonthStart) &&
      scopeMatch t.household_id householdId).map (·.amount)).sum

/-- Claim-side reading of step 2 of the carry-forward contract: the ids of
income-kind budget goals of the scope whose month tag is strictly before
the reference month, restricted to the category when one is given. -/
def specPriorIncomeGoalIds (store : Store) (userId : String) (category : Option String)
    (currentMonthStart : Int) (householdId : Option String) : List String :=
  (store.budgets.filter fun b =>
    b.user_id == userId &&
      (match category with | some c => b.category == c | none => true) &&
      b.type == "income" && decide (b.month_year < currentMonthStart) &&
      scopeMatch b.household_id householdId).map (·.id)

/-- Claim-side reading of step 3 of the carry-forward contract: the sum of
allocated amounts of every allocation whose income-side budget id belongs
to the prior income goal id set, counted regardless of the allocation's
own month tag. -/
def specPriorAllocated (store : Store) (userId : String) (category : Option String)
    (currentMonthStart : Int) (householdId : Option String) : Int :=
  ((store.allocations.filter fun a =>
    (specPriorIncomeGoalIds store userId category currentMonthStart
      householdId).contains a.income_budget_id).map (·.allocated_amount)).sum

/-- Skipping the allocation query when no prior budget goal exists does
not change the allocation sum: no allocation can match an empty id set. -/
theorem guarded_alloc_sum (allocs : List Alloc) (budgets : List Budget) :
    (if budgets.isEmpty then 0
     else ((allocs.filter fun a =>
       (budgets.map (·.id)).contains a.income_budget_id).map
         (·.allocated_amount)).sum) =
    ((allocs.filter fun a =>
      (budgets.map (·.id)).contains a.income_budget_id).map
        (·.allocated_amount)).sum := by
  cases budgets with
  | nil => simp [List.filter]
  | cons b bs => rfl

/-- A positive-part conditional is the max with zero. -/
theorem if_pos_eq_max (x : Int) : (if x > 0 then x else 0) = max 0 x := by
  rw [Int.max_def]
  split <;> split <;> omega

/-- C1: for every scope, reference month and optional category filter, the
carry-forward computation returns `max 0 (A − B)`, where `A` is the sum of
income-kind transaction amounts of the scope dated strictly before the
reference month's first day and `B` is the sum of allocated amounts of all
allocations whose income-side budget id belongs to an income-kind budget
goal of the scope with month tag strictly before the reference month, both
restricted to the category when one is given and `B` counted regardless of
the allocation's own month tag. -/
theorem carryForward_is_clamped_surplus_C1 (store : Store) (userId category : String)
    (currentMonthStart : Int) (householdId : Option String) :
    calculateCarryForward store userId category currentMonthStart householdId =
      max 0 (specPriorIncome store userId (some category) currentMonthStart householdId -
        specPriorAllocated store userId (some category) currentMonthStart householdId) ∧
    calculateTotalGlobalCarryForward store userId currentMonthStart householdId =
      max 0 (specPriorIncome store userId none currentMonthStart householdId -
        specPriorAllocated store userId none currentMonthStart householdId) := by
  constructor
  · simp only [calculateCarryForward, specPriorIncome, specPriorAllocated,
      specPriorIncomeGoalIds]
    rw [guarded_alloc_sum, if_pos_eq_max]
  · simp only [calculateTotalGlobalCarryForward, specPriorIncome, specPriorAllocated,
      specPriorIncomeGoalIds, Bool.and_true]
    rw [guarded_alloc_sum, if_pos_eq_max]

/-- A concrete store with two income categories: category `"A"` earned 10
units before March 2025 with nothing allocated, while category `"B"`
earned 5 units but has 8 units allocated against its past income goal
(over-allocated).  Only the carry-forward computation reads it. -/
def netStore : Store :=
  { transactions :=
      [ { user_id := "u", household_id := none, type := "income", category := "A",
          amount := 10, transaction_date := 20250115 },
        { user_id := "u", household_id := none, type := "income", category := "B",
          amount := 5, transaction_date := 20250115 } ],
    budgets :=
      [ { id := "b1", user_id := "u", household_id := none, type := "income",
          category := "B", planned_amount := 5, month_year := 20250201,
          start_date := 20250201, end_date := none, interval := "Monthly" } ],
    allocations :=
      [ { user_id := "u", income_budget_id := "b1", expense_budget_id := "e1",
          allocated_amount := 8, month_year := 20250201 } ] }

/-- C6: in a store where category `"B"` is over-allocated (8 allocated
against 5 of past income), the per-category carry-forwards summed over the
full category partition (here exactly `"A"` and `"B"`) differ from the
global carry-forward for the same scope and month: per-category clamping
yields 10 + 0 while global netting yields 7. -/
theorem carryForward_category_sum_ne_global_C6 :
    (specPriorAllocated netStore "u" (some "B") 20250301 none >
      specPriorIncome netStore "u" (some "B") 20250301 none) ∧
    (∀ t ∈ netStore.transactions, t.category = "A" ∨ t.category = "B") ∧
    calculateCarryForward netStore "u" "A" 20250301 none = 10 ∧
    calculateCarryForward netStore "u" "B" 20250301 none = 0 ∧
    calculateTotalGlobalCarryForward netStore "u" 20250301 none = 7 ∧
    calculateCarryForward netStore "u" "A" 20250301 none +
        calculateCarryForward netStore "u" "B" 20250301 none ≠
      calculateTotalGlobalCarryForward netStore "u" 20250301 none := by
  decide

/-- The transaction side of a carry-forward run: the summed amounts of
the fetched prior income transactions, or 0 when the query failed — the
source destructures only the `data` field of the query result
(`const { data: transactions } = await transactionQuery`), never its
`error` field, and the store client reports query failure inside that
result object rather than by throwing, so a failed query yields null data
and `transactions?.reduce(...) || 0` evaluates to 0. -/
def runPriorIncome (store : Store) (txnOk : Bool) (userId : String)
    (category : Option String) (currentMonthStart : Int)
    (householdId : Option String) : Int :=
  let txnData : Option (List Txn) :=
    if txnOk then
      some (store.transactions.filter fun t =>
        t.user_id == userId &&
          (match category with | some c => t.category == c | none => true) &&
          t.type == "income" && decide (t.transaction_date < currentMonthStart) &&
          scopeMatch t.household_id householdId)
    else none
  match txnData with
  | some transactions => (transactions.map (·.amount)).sum
  | none => 0

/-- The allocation side of a carry-forward run.  `totalAllocated` starts
at 0; the guard `if (budgets && budgets.length > 0)` skips the allocation
query both when the budget query failed (null data, its `error` field
unread) and when no prior income goal exists; otherwise the fetched
allocations are summed, with a failed allocation query again yielding
null data and `allocations?.reduce(...) || 0` evaluating to 0. -/
def runTotalAllocated (store : Store) (budgetOk allocOk : Bool)
    (userId : String) (category : Option String) (currentMonthStart : Int)
    (householdId : Option String) : Int :=
  let budgetData : Option (List Budget) :=
    if budgetOk then
      some (store.budgets.filter fun b =>
        b.user_id == userId &&
          (match category with | some c => b.category == c | none => true) &&
          b.type == "income" && decide (b.month_year < currentMonthStart) &&
          scopeMatch b.household_id householdId)
    else none
  match budgetData with
  | some budgets =>
    if budgets.isEmpty then 0
    else
      let allocData : Option (List Alloc) :=
        if allocOk then
          some (store.allocations.filter fun a =>
            (budgets.map (·.id)).contains a.income_budget_id)
        else none
      match allocData with
      | some allocations => (allocations.map (·.allocated_amount)).sum
      | none => 0
  | none => 0

/-- Embeds both carry-forward functions with their store reads made
explicit (`category = some c` is `calculateCarryForward`, `none` is
`calculateTotalGlobalCarryForward`).  Each query's success is a flag; a
failed query yields null data, which the source silently treats as an
empty result set — the surrounding `try`/`catch` is not reached by a
query failure, because the code never reads a result's `error` field and
the client does not throw on query errors.  The returned store is the
store after the run: every access is a read. -/
def calculateCarryForwardRun (store : Store) (txnOk budgetOk allocOk : Bool)
    (userId : String) (category : Option String) (currentMonthStart : Int)
    (householdId : Option String) : Int × Store :=
  let totalActualIncome :=
    runPriorIncome store txnOk userId category currentMonthStart householdId
  let totalAllocated :=
    runTotalAllocated store budgetOk allocOk userId category
      currentMonthStart householdId
  let carryForward := totalActualIncome - totalAllocated
  (if carryForward > 0 then carryForward else 0, store)

/-- A failed allocation query leaves the allocated total at 0. -/
theorem runTotalAllocated_alloc_fail (store : Store) (userId : String)
    (category : Option String) (currentMonthStart : Int)
    (householdId : Option String) :
    runTotalAllocated store true false userId category currentMonthStart
      householdId = 0 := by
  simp only [runTotalAllocated]
  split
  · split <;> rfl
  · rfl

/-- With both queries succeeding, the allocated side of a run is the sum
over all allocations whose income-side budget id belongs to the prior
income goal id set. -/
theorem runTotalAllocated_ok (store : Store) (userId : String)
    (category : Option String) (currentMonthStart : Int)
    (householdId : Option String) :
    runTotalAllocated store true true userId category currentMonthStart
        householdId =
      specPriorAllocated store userId category currentMonthStart householdId := by
  have e : runTotalAllocated store true true userId category currentMonthStart
      householdId =
      (if (store.budgets.filter fun b =>
          b.user_id == userId &&
            (match category with | some c => b.category == c | none => true) &&
            b.type == "income" && decide (b.month_year < currentMonthStart) &&
            scopeMatch b.household_id householdId).isEmpty then 0
       else ((store.allocations.filter fun a =>
          ((store.budgets.filter fun b =>
            b.user_id == userId &&
              (match category with | some c => b.category == c | none => true) &&
              b.type == "income" && decide (b.month_year < currentMonthStart) &&
              scopeMatch b.household_id householdId).map (·.id)).contains
            a.income_budget_id).map (·.allocated_amount)).sum) := rfl
  rw [e, guarded_alloc_sum]
  rfl

/-- When every stored allocation amount is nonnegative, the allocated
side of a run is nonnegative whatever the query outcomes. -/
theorem runTotalAllocated_nonneg (store : Store) (budgetOk allocOk : Bool)
    (userId : String) (category : Option String) (currentMonthStart : Int)
    (householdId : Option String)
    (hpos : ∀ a ∈ store.allocations, 0 ≤ a.allocated_amount) :
    0 ≤ runTotalAllocated store budgetOk allocOk userId category
      currentMonthStart householdId := by
  cases budgetOk with
  | false => exact le_refl 0
  | true =>
    cases allocOk with
    | false => rw [runTotalAllocated_alloc_fail]
    | true =>
      rw [runTotalAllocated_ok]
      apply List.sum_nonneg
      intro x hx
      simp only [specPriorAllocated, List.mem_map, List.mem_filter] at hx
      obtain ⟨a, ⟨ha, _⟩, rfl⟩ := hx
      exact hpos a ha

/-- C8 counterexample: on the two-category store — 15 of prior income, 8
allocated against a prior income goal, so the true global carry-forward
is 7 — a failed budget query and a failed allocation query each make the
computation return the clamped prior income 15, not the claimed 0: the
failure is silently absorbed as an empty result set, not reported as
zero. -/
theorem carryForward_failure_not_zero_C8_counterexample :
    (calculateCarryForwardRun netStore true false true "u" none 20250301
      none).1 = 15 ∧
    (calculateCarryForwardRun netStore true true false "u" none 20250301
      none).1 = 15 ∧
    (calculateCarryForwardRun netStore true true true "u" none 20250301
      none).1 = 7 ∧
    (calculateCarryForwardRun netStore true false true "u" none 20250301
      none).1 ≠ 0 := by
  decide

/-- C8 (amended): the carry-forward computation leaves the store
untouched for every scope, month and optional category, but query
failures are not detected (the error field is never read): a failed
budget query or a failed allocation query zeroes only the allocated side
and returns the clamped prior-income sum, which can be positive; a failed
transaction query returns 0 whenever the stored allocation amounts are
nonnegative; with no failure the run returns the pure carry-forward
value, and on an empty store that genuine value is also 0 — zero remains
ambiguous between genuine emptiness and certain failures. -/
theorem carryForward_readOnly_null_data_C8 :
    (∀ store txnOk budgetOk allocOk userId category currentMonthStart householdId,
      (calculateCarryForwardRun store txnOk budgetOk allocOk userId category
        currentMonthStart householdId).2 = store) ∧
    (∀ store allocOk userId category currentMonthStart householdId,
      (calculateCarryForwardRun store true false allocOk userId category
          currentMonthStart householdId).1 =
        max 0 (specPriorIncome store userId category currentMonthStart
          householdId)) ∧
    (∀ store userId category currentMonthStart householdId,
      (calculateCarryForwardRun store true true false userId category
          currentMonthStart householdId).1 =
        max 0 (specPriorIncome store userId category currentMonthStart
          householdId)) ∧
    (∀ store budgetOk allocOk userId category currentMonthStart householdId,
      (∀ a ∈ store.allocations, 0 ≤ a.allocated_amount) →
        (calculateCarryForwardRun store false budgetOk allocOk userId category
          currentMonthStart householdId).1 = 0) ∧
    (∀ store userId category currentMonthStart householdId,
      (calculateCarryForwardRun store true true true userId (some category)
          currentMonthStart householdId).1 =
        calculateCarryForward store userId category currentMonthStart
          householdId) ∧
    (∀ store userId currentMonthStart householdId,
      (calculateCarryForwardRun store true true true userId none
          currentMonthStart householdId).1 =
        calculateTotalGlobalCarryForward store userId currentMonthStart
          householdId) ∧
    (calculateCarryForwardRun ⟨[], [], []⟩ true true true "u" (some "A")
        20250301 none).1 = 0 := by
  refine ⟨?_, ?_, ?_, ?_, ?_, ?_, ?_⟩
  · intro store txnOk budgetOk allocOk userId category currentMonthStart householdId
    rfl
  · intro store allocOk userId category currentMonthStart householdId
    have e : calculateCarryForwardRun store true false allocOk userId category
        currentMonthStart householdId =
        (if specPriorIncome store userId category currentMonthStart
            householdId - 0 > 0 then
          specPriorIncome store userId category currentMonthStart householdId - 0
         else 0, store) := rfl
    rw [e]
    show (if _ > 0 then _ else 0) = _
    rw [sub_zero]
    exact if_pos_eq_max _
  · intro store userId category currentMonthStart householdId
    have e : (calculateCarryForwardRun store true true false userId category
        currentMonthStart householdId).1 =
        (if specPriorIncome store userId category currentMonthStart
            householdId -
          runTotalAllocated store true false userId category currentMonthStart
            householdId > 0 then
          specPriorIncome store userId category currentMonthStart householdId -
            runTotalAllocated store true false userId category currentMonthStart
              householdId
         else 0) := rfl
    rw [e, runTotalAllocated_alloc_fail, sub_zero]
    exact if_pos_eq_max _
  · intro store budgetOk allocOk userId category currentMonthStart householdId hpos
    have hT := runTotalAllocated_nonneg store budgetOk allocOk userId category
      currentMonthStart householdId hpos
    have e : (calculateCarryForwardRun store false budgetOk allocOk userId
        category currentMonthStart householdId).1 =
        (if (0 : Int) -
          runTotalAllocated store budgetOk allocOk userId category
            currentMonthStart householdId > 0 then
          (0 : Int) -
            runTotalAllocated store budgetOk allocOk userId category
              currentMonthStart householdId
         else 0) := rfl
    rw [e]
    split
    · omega
    · rfl
  · intro store userId category currentMonthStart householdId
    have e : (calculateCarryForwardRun store true true true userId
        (some category) currentMonthStart householdId).1 =
        (if specPriorIncome store userId (some category) currentMonthStart
            householdId -
          runTotalAllocated store true true userId (some category)
            currentMonthStart householdId > 0 then
          specPriorIncome store userId (some category) currentMonthStart
              householdId -
            runTotalAllocated store true true userId (some category)
              currentMonthStart householdId
         else 0) := rfl
    rw [e, runTotalAllocated_ok]
    simp only [calculateCarryForward, specPriorIncome, specPriorAllocated,
      specPriorIncomeGoalIds]
    rw [guarded_alloc_sum]
  · intro store userId currentMonthStart householdId
    have e : (calculateCarryForwardRun store true true true userId none
        currentMonthStart householdId).1 =
        (if specPriorIncome store userId none currentMonthStart householdId -
          runTotalAllocated store true true userId none currentMonthStart
            householdId > 0 then
          specPriorIncome store userId none currentMonthStart householdId -
            runTotalAllocated store true true userId none currentMonthStart
              householdId
         else 0) := rfl
    rw [e, runTotalAllocated_ok]
    simp only [calculateTotalGlobalCarryForward, specPriorIncome,
      specPriorAllocated, specPriorIncomeGoalIds, Bool.and_true]
    rw [guarded_alloc_sum]
  · decide

/-- Witness for C8: on the concrete two-category store, whose allocation
amounts are nonnegative, the run with a failed transaction query
returns 0. -/
theorem carryForward_readOnly_null_data_C8_witness :
    (calculateCarryForwardRun netStore false true true "u" none 20250301
      none).1 = 0 :=
  carryForward_readOnly_null_data_C8.2.2.2.1 netStore true true "u" none
    20250301 none (by decide)

/-! ## Allocation engine: availability as computed by the GoalAllocation page

The page's `fetchData` derives, per income category present in the
transactions, an available amount: total income received up to the end of
the selected month minus the allocated amounts it attributes to the
category.  The scope is `none` for individual mode (the user's rows with
no household) and `some h` for family mode with active household `h`. -/

/-- Embeds `applyScopeFilter` of `GoalAllocation.fetchData`: family scope
keeps rows of the active household, individual scope keeps the current
user's rows with no household. -/
def applyScopeFilter (userId : String) (scope : Option String)
    (rowUser : String) (rowHousehold : Option String) : Bool :=
  match scope with
  | some h => rowHousehold == some h
  | none => rowHousehold == none && rowUser == userId

/-- The income transactions `fetchData` aggregates: income kind, dated up
to and including the end of the selected month, restricted to the scope. -/
def gaTxns (store : Store) (userId : String) (scope : Option String)
    (endDateStr : Int) : List Txn :=
  store.transactions.filter fun t =>
    t.type == "income" && decide (t.transaction_date ≤ endDateStr) &&
      applyScopeFilter userId scope t.user_id t.household_id

/-- Embeds the `incomeMap` accumulation of `fetchData`: a default-zero
map from category to the summed amounts of the fetched income
transactions, built in list order. -/
def incomeMapGA (store : Store) (userId : String) (scope : Option String)
    (endDateStr : Int) : String → Int :=
  (gaTxns store userId scope endDateStr).foldl
    (fun m t => fun c => if t.category == c then m t.category + t.amount else m c)
    (fun _ => 0)

/-- Whether `fetchData` counts an allocation into `allocatedMap`: its
month tag is not in the future of the selected month, its income-side
budget row exists, and that row's household matches the scope (the check
uses only the joined income budget's household, never the allocation's
user). -/
def allocCountsGA (store : Store) (scope : Option String) (monthStr : Int)
    (a : Alloc) : Bool :=
  decide (a.month_year ≤ monthStr) &&
    (match store.budgets.find? fun b => b.id == a.income_budget_id with
     | none => false
     | some b => scopeMatch b.household_id scope)

/-- The category under which `fetchData` books a counted allocation: the
category of its joined income-side budget row. -/
def allocCategoryGA (store : Store) (a : Alloc) : String :=
  match store.budgets.find? fun b => b.id == a.income_budget_id with
  | none => ""
  | some b => b.category

/-- Embeds the `allocatedMap` accumulation of `fetchData`: a default-zero
map from category to the summed allocated amounts of the counted
allocations, keyed by the income-side budget's category. -/
def allocatedMapGA (store : Store) (scope : Option String) (monthStr : Int) :
    String → Int :=
  store.allocations.foldl
    (fun m a =>
      if allocCountsGA store scope monthStr a then
        fun c =>
          if allocCategoryGA store a == c then
            m (allocCategoryGA store a) + a.allocated_amount
          else m c
      else m)
    (fun _ => 0)

/-- The available amount `fetchData` stores for (the budget id chosen
for) an income category: total income of the category minus total
allocated of the category. -/
def availableFor (store : Store) (userId : String) (scope : Option String)
    (monthStr endDateStr : Int) (category : String) : Int :=
  incomeMapGA store userId scope endDateStr category -
    allocatedMapGA store scope monthStr category

/-- The income budgets `fetchData` fetches for the id lookup: income kind,
in scope, ordered by month tag descending. -/
def fetchedIncomeBudgets (store : Store) (userId : String)
    (scope : Option String) : List Budget :=
  (store.budgets.filter fun b =>
    b.type == "income" && applyScopeFilter userId scope b.user_id b.household_id).mergeSort
      fun b1 b2 => decide (b2.month_year ≤ b1.month_year)

/-- The budget row the page associates with an income category: the first
fetched income budget of that category (the one with the latest month
tag). -/
def categoryBudget (store : Store) (userId : String) (scope : Option String)
    (category : String) : Option Budget :=
  (fetchedIncomeBudgets store userId scope).find? fun b => b.category == category

/-- Looking up a category in the income-map fold yields the initial value
plus the summed amounts of the matching transactions. -/
theorem incomeFold_lookup (l : List Txn) (m : String → Int) (c : String) :
    (l.foldl (fun m t => fun x =>
        if t.category == x then m t.category + t.amount else m x) m) c =
      m c + ((l.filter fun t => t.category == c).map (·.amount)).sum := by
  induction l generalizing m with
  | nil => simp
  | cons t ts ih =>
    rw [List.foldl_cons, ih]
    cases h : t.category == c with
    | true =>
      have hc : t.category = c := by simpa using h
      simp [List.filter_cons, h, hc]
      ring
    | false => simp [List.filter_cons, h]

/-- Looking up a category in the allocated-map fold yields the initial
value plus the summed allocated amounts of the counted allocations booked
under that category. -/
theorem allocFold_lookup (store : Store) (scope : Option String) (monthStr : Int)
    (l : List Alloc) (m : String → Int) (c : String) :
    (l.foldl (fun m a =>
        if allocCountsGA store scope monthStr a then
          fun x =>
            if allocCategoryGA store a == x then
              m (allocCategoryGA store a) + a.allocated_amount
            else m x
        else m) m) c =
      m c + ((l.filter fun a => allocCountsGA store scope monthStr a &&
        (allocCategoryGA store a == c)).map (·.allocated_amount)).sum := by
  induction l generalizing m with
  | nil => simp
  | cons a as ih =>
    rw [List.foldl_cons, ih]
    cases hp : allocCountsGA store scope monthStr a with
    | false => simp [List.filter_cons, hp]
    | true =>
      cases h : allocCategoryGA store a == c with
      | true =>
        have hc : allocCategoryGA store a = c := by simpa using h
        simp [List.filter_cons, hp, h, hc]
        ring
      | false => simp [List.filter_cons, hp, h]

/-- The counted-allocation predicate, unfolded through the income-side
budget join: month tag at most the selected month and a joined income
budget matching the scope and bearing the looked-up category. -/
theorem allocPred_eq (store : Store) (scope : Option String) (monthStr : Int)
    (c : String) (a : Alloc) :
    (allocCountsGA store scope monthStr a && (allocCategoryGA store a == c)) =
      (decide (a.month_year ≤ monthStr) &&
        ((store.budgets.find? fun b => b.id == a.income_budget_id).any fun b =>
          scopeMatch b.household_id scope && b.category == c)) := by
  simp only [allocCountsGA, allocCategoryGA]
  cases hf : store.budgets.find? fun b => b.id == a.income_budget_id with
  | none => simp
  | some b => simp [Bool.and_assoc]

/-- The claim-side available balance of an income goal `g`, read from the
claim's words: income transactions of `g`'s category and scope dated up to
and including the end of `g`'s month (`goalMonthEnd`), minus every
allocation whose income side is `g`'s id, with no restriction on the
allocation's own month tag. -/
def claimedAvailableBalance (store : Store) (userId : String)
    (scope : Option String) (g : Budget) (goalMonthEnd : Int) : Int :=
  ((store.transactions.filter fun t =>
      t.type == "income" && t.category == g.category &&
        decide (t.transaction_date ≤ goalMonthEnd) &&
        applyScopeFilter userId scope t.user_id t.household_id).map (·.amount)).sum -
  ((store.allocations.filter fun a => a.income_budget_id == g.id).map
    (·.allocated_amount)).sum

/-- The amended available balance for an income category: income
transactions of the category and scope dated up to and including the end
of the selected month, minus the allocated amounts of the allocations
whose month tag is at most the selected month's start and whose
income-side budget row exists, lies in the scope, and bears the category. -/
def amendedAvailableBalance (store : Store) (userId : String)
    (scope : Option String) (monthStr endDateStr : Int) (category : String) : Int :=
  ((store.transactions.filter fun t =>
      (t.category == category) &&
        (t.type == "income" && decide (t.transaction_date ≤ endDateStr) &&
          applyScopeFilter userId scope t.user_id t.household_id)).map (·.amount)).sum -
  ((store.allocations.filter fun a =>
      decide (a.month_year ≤ monthStr) &&
        ((store.budgets.find? fun b => b.id == a.income_budget_id).any fun b =>
          scopeMatch b.household_id scope && b.category == category)).map
    (·.allocated_amount)).sum

/-- A concrete store refuting the claimed availability formula: one income
goal `g1` of category `"Sal"` for January 2025, one income transaction of
100 in January, and one allocation of 30 against `g1` tagged for February
(a future month relative to the selected January). -/
def gaGoal : Budget :=
  { id := "g1", user_id := "u", household_id := none, type := "income",
    category := "Sal", planned_amount := 0, month_year := 20250101,
    start_date := 20250101, end_date := none, interval := "Monthly" }

/-- The store of the C2 counterexample. -/
def gaStore : Store :=
  { transactions :=
      [ { user_id := "u", household_id := none, type := "income",
          category := "Sal", amount := 100, transaction_date := 20250110 } ],
    budgets := [gaGoal],
    allocations :=
      [ { user_id := "u", income_budget_id := "g1", expense_budget_id := "e1",
          allocated_amount := 30, month_year := 20250201 } ] }

/-- C2 counterexample: with the January 2025 page selection, the engine
associates category `"Sal"` with goal `g1` and computes an available
balance of 100 (the February-tagged allocation is ignored), while the
claimed formula — all allocations against `g1` regardless of month tag —
yields 70. -/
theorem availableFor_ne_claimed_C2_counterexample :
    categoryBudget gaStore "u" none "Sal" = some gaGoal ∧
    availableFor gaStore "u" none 20250101 20250131 "Sal" = 100 ∧
    claimedAvailableBalance gaStore "u" none gaGoal 20250131 = 70 ∧
    availableFor gaStore "u" none 20250101 20250131 "Sal" ≠
      claimedAvailableBalance gaStore "u" none gaGoal 20250131 := by
  refine ⟨?_, by decide, by decide, by decide⟩
  rw [categoryBudget, fetchedIncomeBudgets,
    show (gaStore.budgets.filter fun b =>
      b.type == "income" &&
        applyScopeFilter "u" none b.user_id b.household_id) = [gaGoal] from by decide,
    List.mergeSort_singleton]
  decide

/-- C2 (amended): for every store, scope, selected month and income
category, the available balance the allocation engine computes equals the
income of the category and scope up to the end of the selected month minus
the allocations booked to the category — counting only allocations whose
month tag is at most the selected month's start and whose income-side
budget row exists, lies in the scope, and bears the category. -/
theorem availableFor_eq_amended_C2 (store : Store) (userId : String)
    (scope : Option String) (monthStr endDateStr : Int) (category : String) :
    availableFor store userId scope monthStr endDateStr category =
      amendedAvailableBalance store userId scope monthStr endDateStr category := by
  rw [availableFor, amendedAvailableBalance]
  have hI : incomeMapGA store userId scope endDateStr category =
      ((store.transactions.filter fun t =>
        (t.category == category) &&
          (t.type == "income" && decide (t.transaction_date ≤ endDateStr) &&
            applyScopeFilter userId scope t.user_id t.household_id)).map
        (·.amount)).sum := by
    rw [incomeMapGA, incomeFold_lookup, gaTxns, List.filter_filter]
    simp
  have hA : allocatedMapGA store scope monthStr category =
      ((store.allocations.filter fun a =>
        decide (a.month_year ≤ monthStr) &&
          ((store.budgets.find? fun b => b.id == a.income_budget_id).any fun b =>
            scopeMatch b.household_id scope && b.category == category)).map
        (·.allocated_amount)).sum := by
    rw [allocatedMapGA, allocFold_lookup]
    rw [List.filter_congr fun a _ => allocPred_eq store scope monthStr category a]
    simp
  rw [hI, hA]

/-! ## Allocation engine: bulk replace (`BudgetIncomeAllocation.saveAllocations`)

The component replaces a month's allocation set: it deletes the existing
`budget_allocations` rows matching the current user and the month key,
then inserts the desired `(income id, expense id, amount)` triples that
have an income id and a positive amount.  No balance check is performed
and the delete consults neither the scope nor the income-side budget. -/

/-- The allocation row `saveAllocations` inserts for one desired triple. -/
def mkSavedAlloc (userId : String) (monthKey : Int) (d : String × String × Int) :
    Alloc :=
  { user_id := userId, month_year := monthKey, income_budget_id := d.1,
    expense_budget_id := d.2.1, allocated_amount := d.2.2 }

/-- Embeds `saveAllocations`: delete every allocation row of the user and
month key, then insert the desired triples that have a non-empty income id
and a positive amount. -/
def saveAllocations (store : Store) (userId : String) (monthKey : Int)
    (desired : List (String × String × Int)) : Store :=
  let afterDelete := store.allocations.filter fun a =>
    !(a.user_id == userId && a.month_year == monthKey)
  let allocationsToInsert :=
    (desired.filter fun d => d.1 != "" && decide (d.2.2 > 0)).map
      (mkSavedAlloc userId monthKey)
  { store with allocations := afterDelete ++ allocationsToInsert }

/-- The family-scoped income budget of the C4 counterexample store. -/
def c4FamBudget : Budget :=
  { id := "b1", user_id := "u", household_id := some "h", type := "income",
    category := "Sal", planned_amount := 50, month_year := 20250101,
    start_date := 20250101, end_date := none, interval := "Monthly" }

/-- An allocation row whose income side is the family-scoped budget. -/
def c4Row : Alloc :=
  { user_id := "u", income_budget_id := "b1", expense_budget_id := "e1",
    allocated_amount := 20, month_year := 20250101 }

/-- The C4 counterexample store: a single family-scope allocation row. -/
def c4Store : Store :=
  { transactions := [], budgets := [c4FamBudget], allocations := [c4Row] }

/-- C4 counterexample: the store's only allocation row belongs to the
family scope of household `"h"` (via its income-side budget), yet a bulk
replace run from the individual scope for the same user and month — with
an empty desired set — deletes it, where the claim requires rows of a
different scope to be left unchanged. -/
theorem saveAllocations_ignores_scope_C4_counterexample :
    (c4Store.budgets.find? fun b => b.id == c4Row.income_budget_id) =
        some c4FamBudget ∧
    c4FamBudget.household_id = some "h" ∧
    c4Row ∈ c4Store.allocations ∧
    (saveAllocations c4Store "u" 20250101 []).allocations = [] ∧
    c4Row ∉ (saveAllocations c4Store "u" 20250101 []).allocations := by
  decide

/-- C4 (amended): a bulk replace for a user and month key deletes exactly
the allocation rows carrying that user id and month key — regardless of
their scope — and inserts the desired triples that have an income id and a
positive amount; allocation rows of a different user or different month
key, and the other two tables, are left unchanged. -/
theorem saveAllocations_frame_C4 (store : Store) (userId : String)
    (monthKey : Int) (desired : List (String × String × Int)) :
    ((saveAllocations store userId monthKey desired).allocations.filter fun a =>
        !(a.user_id == userId && a.month_year == monthKey)) =
      (store.allocations.filter fun a =>
        !(a.user_id == userId && a.month_year == monthKey)) ∧
    ((saveAllocations store userId monthKey desired).allocations.filter fun a =>
        a.user_id == userId && a.month_year == monthKey) =
      ((desired.filter fun d => d.1 != "" && decide (d.2.2 > 0)).map
        (mkSavedAlloc userId monthKey)) ∧
    (saveAllocations store userId monthKey desired).transactions =
      store.transactions ∧
    (saveAllocations store userId monthKey desired).budgets = store.budgets := by
  refine ⟨?_, ?_, rfl, rfl⟩
  · simp only [saveAllocations, List.filter_append, List.filter_filter,
      Bool.and_self]
    rw [List.filter_map]
    have h1 : ∀ d, ((fun a =>
        !(a.user_id == userId && a.month_year == monthKey)) ∘
          mkSavedAlloc userId monthKey) d = false := by
      intro d; simp [mkSavedAlloc]
    rw [List.filter_congr fun d _ => h1 d]
    simp
  · simp only [saveAllocations, List.filter_append, List.filter_filter]
    have h0 : ∀ a : Alloc, ((a.user_id == userId && a.month_year == monthKey) &&
        !(a.user_id == userId && a.month_year == monthKey)) = false := by
      intro a; cases a.user_id == userId && a.month_year == monthKey <;> simp
    rw [List.filter_congr fun a _ => h0 a]
    rw [List.filter_map]
    have h1 : ∀ d, ((fun a =>
        a.user_id == userId && a.month_year == monthKey) ∘
          mkSavedAlloc userId monthKey) d = true := by
      intro d; simp [mkSavedAlloc]
    rw [List.filter_congr fun d _ => h1 d]
    simp

/-! ## Allocation engine: create allocation (`GoalAllocation.handleAllocate`)

The handler validates the form fields, checks the requested amount
against the availability snapshot of the selected income source, then —
materializing a virtual income goal first when needed — inserts one
allocation row.  The allocation insert is a separate store round trip
whose failure is modelled by the `allocInsertOk` flag; the checks all
happen before any write. -/

/-- The raw amount form field: an empty string, a string that does not
parse to a number, or a parsed numeric value. -/
inductive AmountField where
  | missing
  | invalid
  | value (n : Int)
deriving DecidableEq, Repr

/-- The outcome `handleAllocate` reports. -/
inductive AllocateResult where
  | missingFields
  | invalidAmount
  | exceedsAvailable
  | insertFailed
  | success
deriving DecidableEq, Repr

/-- The virtual-id test `selectedIncomeId.startsWith("virtual-")`,
rendered over the string's character list (a virtual id is
`"virtual-" ++ category`). -/
def isVirtualId (s : String) : Bool := s.data.take 8 == "virtual-".data

/-- The category name `selectedIncomeId.replace("virtual-", "")` recovers
from a virtual id: the characters after the 8-character prefix. -/
def virtualCategory (s : String) : String := String.mk (s.data.drop 8)

/-- Embeds `handleAllocate`:
1. reject when the income id, expense id or amount field is missing;
2. reject when the amount does not parse or is not positive;
3. reject with the exceeds-available outcome when the amount is above the
   availability snapshot of the selected income id (absent keys read 0);
4. when the selected income id is a virtual one,
   first insert a real income budget row with planned amount 0, the
   selected month as month tag and start date, interval `"Irregular"`, the
   scope's household and the fresh id `freshId`;
5. insert the allocation row for the selected month; if that insert fails
   (`allocInsertOk = false`) the handler reports failure, with no rollback
   of the budget row inserted in step 4. -/
def handleAllocate (store : Store) (availableAmounts : String → Int)
    (selectedIncomeId selectedExpenseId : String) (amount : AmountField)
    (userId : String) (monthStr : Int) (scope : Option String)
    (freshId : String) (allocInsertOk : Bool) : AllocateResult × Store :=
  if selectedIncomeId == "" || selectedExpenseId == "" ||
      amount == AmountField.missing then
    (.missingFields, store)
  else
    match amount with
    | .missing => (.missingFields, store)
    | .invalid => (.invalidAmount, store)
    | .value amountNum =>
      if amountNum ≤ 0 then (.invalidAmount, store)
      else
        let available := availableAmounts selectedIncomeId
        if amountNum > available then (.exceedsAvailable, store)
        else
          let idAndStore :=
            if isVirtualId selectedIncomeId then
              let categoryName := virtualCategory selectedIncomeId
              let newBudget : Budget :=
                { id := freshId, user_id := userId, household_id := scope,
                  type := "income", category := categoryName,
                  planned_amount := 0, month_year := monthStr,
                  start_date := monthStr, end_date := none,
                  interval := "Irregular" }
              (freshId, { store with budgets := store.budgets ++ [newBudget] })
            else (selectedIncomeId, store)
          if allocInsertOk then
            (.success,
              { idAndStore.2 with allocations := idAndStore.2.allocations ++
                [{ user_id := userId, income_budget_id := idAndStore.1,
                   expense_budget_id := selectedExpenseId,
                   allocated_amount := amountNum, month_year := monthStr }] })
          else (.insertFailed, idAndStore.2)

/-- The individual-scope income goal of the C3 counterexample: category
`"Sal"`, January 2025. -/
def c3Goal : Budget :=
  { id := "g", user_id := "u", household_id := none, type := "income",
    category := "Sal", planned_amount := 100, month_year := 20250101,
    start_date := 20250101, end_date := none, interval := "Monthly" }

/-- The C3 counterexample store: 100 of January income for `"Sal"`, no
allocations yet. -/
def c3Store : Store :=
  { transactions :=
      [ { user_id := "u", household_id := none, type := "income",
          category := "Sal", amount := 100, transaction_date := 20250110 } ],
    budgets := [c3Goal],
    allocations := [] }

/-- The C3 counterexample store after a bulk replace that allocates 500
of goal `"g"` to expense goal `"e"`. -/
def c3After : Store := saveAllocations c3Store "u" 20250101 [("g", "e", 500)]

/-- C3 counterexample: `c3Store` is itself producible by the allocation
writers (an empty bulk replace reproduces it), and a single sequential
bulk replace allocating 500 against goal `"g"` — whose available balance
per the specification is 100 of income minus the allocations against it —
leaves the store with 500 allocated to `"g"`, exceeding that goal's
available balance (which is now −400): the invariant does not survive the
bulk replace operation, which performs no balance check. -/
theorem saveAllocations_breaks_invariant_C3_counterexample :
    saveAllocations c3Store "u" 20250101 [] = c3Store ∧
    ((c3After.allocations.filter fun a => a.income_budget_id == c3Goal.id).map
      (·.allocated_amount)).sum = 500 ∧
    claimedAvailableBalance c3After "u" none c3Goal 20250131 = -400 ∧
    ¬((500 : Int) ≤ -400) ∧
    ¬((500 : Int) ≤ 100) := by
  decide

/-- C3 (amended): only the create-allocation handler enforces the bound,
and only advisorily at entry time: whenever `handleAllocate` reports
success for a requested amount, that amount is at most the availability
snapshot of the selected income source.  (The bulk replace operation
performs no such check, so the cumulative bound can be exceeded even
sequentially — see the counterexample.) -/
theorem handleAllocate_entry_check_C3 (store : Store)
    (availableAmounts : String → Int) (inc exp : String) (a : Int)
    (userId : String) (monthStr : Int) (scope : Option String)
    (freshId : String) (ok : Bool)
    (h : (handleAllocate store availableAmounts inc exp (.value a) userId
      monthStr scope freshId ok).1 = .success) :
    a ≤ availableAmounts inc := by
  simp only [handleAllocate] at h
  split at h
  · simp at h
  · split at h
    · simp at h
    · split at h
      · simp at h
      · omega

/-- Witness for C3: a concrete successful create allocation of amount 2
against an availability snapshot of 2. -/
theorem handleAllocate_entry_check_C3_witness :
    (handleAllocate c3Store (fun _ => 2) "g" "e" (.value 2) "u" 20250101
      none "f" true).1 = .success ∧ (2 : Int) ≤ (fun _ => (2 : Int)) "g" :=
  ⟨by decide,
    handleAllocate_entry_check_C3 c3Store (fun _ => 2) "g" "e" 2 "u" 20250101
      none "f" true (by decide)⟩

/-- C7: a create-allocation request with all fields present, a positive
amount equal to exactly the availability snapshot of the selected income
source, succeeds and appends exactly one allocation row; a request whose
amount exceeds the snapshot is rejected with the exceeds-available outcome
and the store untouched; a request with a missing income id, expense id or
amount is rejected as missing fields with the store untouched; a request
with a non-positive amount is rejected as invalid with the store
untouched. -/
theorem handleAllocate_boundary_C7 (store : Store) (avail : String → Int)
    (inc exp userId : String) (monthStr : Int) (scope : Option String)
    (freshId : String) :
    (∀ a : Int, inc ≠ "" → exp ≠ "" → 0 < a → a = avail inc →
      (handleAllocate store avail inc exp (.value a) userId monthStr scope
          freshId true).1 = .success ∧
      (handleAllocate store avail inc exp (.value a) userId monthStr scope
          freshId true).2.allocations = store.allocations ++
        [{ user_id := userId,
           income_budget_id := if isVirtualId inc then freshId else inc,
           expense_budget_id := exp, allocated_amount := a,
           month_year := monthStr }]) ∧
    (∀ (a : Int) (ok : Bool), inc ≠ "" → exp ≠ "" → 0 < a → avail inc < a →
      handleAllocate store avail inc exp (.value a) userId monthStr scope
        freshId ok = (.exceedsAvailable, store)) ∧
    (∀ (amount : AmountField) (ok : Bool),
      inc = "" ∨ exp = "" ∨ amount = .missing →
      handleAllocate store avail inc exp amount userId monthStr scope
        freshId ok = (.missingFields, store)) ∧
    (∀ (a : Int) (ok : Bool), inc ≠ "" → exp ≠ "" → a ≤ 0 →
      handleAllocate store avail inc exp (.value a) userId monthStr scope
        freshId ok = (.invalidAmount, store)) := by
  refine ⟨?_, ?_, ?_, ?_⟩
  · intro a h1 h2 h3 h4
    refine ⟨?_, ?_⟩ <;>
    · simp only [handleAllocate]
      split
      · rename_i hc
        rw [beq_eq_false_iff_ne.2 h1, beq_eq_false_iff_ne.2 h2] at hc
        simp at hc
      · split
        · omega
        · split
          · omega
          · cases hV : isVirtualId inc <;> simp [hV]
  · intro a ok h1 h2 h3 h4
    simp only [handleAllocate]
    split
    · rename_i hc; rw [beq_eq_false_iff_ne.2 h1, beq_eq_false_iff_ne.2 h2] at hc
      simp at hc
    · split
      · omega
      · rfl
  · intro amount ok h
    rcases h with h | h | h <;> subst h <;> simp [handleAllocate]
  · intro a ok h1 h2 h3
    simp only [handleAllocate]
    split
    · rename_i hc; rw [beq_eq_false_iff_ne.2 h1, beq_eq_false_iff_ne.2 h2] at hc
      simp at hc
    · rfl

/-- Witness for C7: with an availability snapshot of 5 for income source
`"g"`, allocating exactly 5 succeeds and appends the one allocation row. -/
theorem handleAllocate_boundary_C7_witness :
    (handleAllocate c3Store (fun _ => 5) "g" "e" (.value 5) "u" 20250101
        none "f" true).1 = .success ∧
    (handleAllocate c3Store (fun _ => 5) "g" "e" (.value 5) "u" 20250101
        none "f" true).2.allocations = c3Store.allocations ++
      [{ user_id := "u",
         income_budget_id := if isVirtualId "g" then "f" else "g",
         expense_budget_id := "e", allocated_amount := 5,
         month_year := 20250101 }] :=
  (handleAllocate_boundary_C7 c3Store (fun _ => 5) "g" "e" "u" 20250101
    none "f").1 5 (by decide) (by decide) (by decide) rfl

/-- The income budget row `handleAllocate` materializes for a virtual
income source: planned amount 0, the selected month as month tag and
start date, interval `"Irregular"`, the category recovered from the
virtual id. -/
def materializedGoal (inc userId : String) (monthStr : Int)
    (scope : Option String) (freshId : String) : Budget :=
  { id := freshId, user_id := userId, household_id := scope, type := "income",
    category := virtualCategory inc, planned_amount := 0,
    month_year := monthStr, start_date := monthStr, end_date := none,
    interval := "Irregular" }

/-- C10: a valid create-allocation request against a virtual income source
first inserts a real budget goal row with planned amount 0 and the
selected month as month tag, then inserts the allocation row pointing at
the fresh goal id; when the allocation insert fails, the materialized
budget row nevertheless remains and the store has changed even though the
create reported failure. -/
theorem handleAllocate_virtual_nonatomic_C10 (store : Store)
    (avail : String → Int) (inc exp userId : String) (a : Int)
    (monthStr : Int) (scope : Option String) (freshId : String)
    (hV : isVirtualId inc = true) (h1 : inc ≠ "") (h2 : exp ≠ "")
    (h3 : 0 < a) (h4 : a ≤ avail inc) :
    (materializedGoal inc userId monthStr scope freshId).planned_amount = 0 ∧
    (materializedGoal inc userId monthStr scope freshId).month_year = monthStr ∧
    (handleAllocate store avail inc exp (.value a) userId monthStr scope
        freshId true).2.budgets =
      store.budgets ++ [materializedGoal inc userId monthStr scope freshId] ∧
    (handleAllocate store avail inc exp (.value a) userId monthStr scope
        freshId true).2.allocations = store.allocations ++
      [{ user_id := userId, income_budget_id := freshId,
         expense_budget_id := exp, allocated_amount := a,
         month_year := monthStr }] ∧
    (handleAllocate store avail inc exp (.value a) userId monthStr scope
        freshId false).1 = .insertFailed ∧
    (handleAllocate store avail inc exp (.value a) userId monthStr scope
        freshId false).2.budgets =
      store.budgets ++ [materializedGoal inc userId monthStr scope freshId] ∧
    (handleAllocate store avail inc exp (.value a) userId monthStr scope
        freshId false).2.allocations = store.allocations ∧
    (handleAllocate store avail inc exp (.value a) userId monthStr scope
        freshId false).2 ≠ store := by
  have key1 : handleAllocate store avail inc exp (.value a) userId monthStr
      scope freshId true =
      (.success,
        { store with
          budgets := store.budgets ++
            [materializedGoal inc userId monthStr scope freshId],
          allocations := store.allocations ++
            [{ user_id := userId, income_budget_id := freshId,
               expense_budget_id := exp, allocated_amount := a,
               month_year := monthStr }] }) := by
    simp only [handleAllocate]
    split
    · rename_i hc; rw [beq_eq_false_iff_ne.2 h1, beq_eq_false_iff_ne.2 h2] at hc
      simp at hc
    · split
      · omega
      · split
        · omega
        · simp [hV, materializedGoal]
  have key2 : handleAllocate store avail inc exp (.value a) userId monthStr
      scope freshId false =
      (.insertFailed,
        { store with
          budgets := store.budgets ++
            [materializedGoal inc userId monthStr scope freshId] }) := by
    simp only [handleAllocate]
    split
    · rename_i hc; rw [beq_eq_false_iff_ne.2 h1, beq_eq_false_iff_ne.2 h2] at hc
      simp at hc
    · split
      · omega
      · split
        · omega
        · simp [hV, materializedGoal]
  refine ⟨rfl, rfl, ?_, ?_, ?_, ?_, ?_, ?_⟩
  · rw [key1]
  · rw [key1]
  · rw [key2]
  · rw [key2]
  · rw [key2]
  · rw [key2]
    intro heq
    have hlen := congrArg (fun s => s.budgets.length) heq
    simp at hlen

/-- Witness for C10: a concrete valid request against the virtual income
source `"virtual-Sal"` with availability 5 and amount 3. -/
theorem handleAllocate_virtual_nonatomic_C10_witness :
    (materializedGoal "virtual-Sal" "u" 20250101 none "f").planned_amount = 0 ∧
    (materializedGoal "virtual-Sal" "u" 20250101 none "f").month_year =
      20250101 ∧
    (handleAllocate c3Store (fun _ => 5) "virtual-Sal" "e" (.value 3) "u"
        20250101 none "f" true).2.budgets =
      c3Store.budgets ++ [materializedGoal "virtual-Sal" "u" 20250101 none "f"] ∧
    (handleAllocate c3Store (fun _ => 5) "virtual-Sal" "e" (.value 3) "u"
        20250101 none "f" true).2.allocations = c3Store.allocations ++
      [{ user_id := "u", income_budget_id := "f", expense_budget_id := "e",
         allocated_amount := 3, month_year := 20250101 }] ∧
    (handleAllocate c3Store (fun _ => 5) "virtual-Sal" "e" (.value 3) "u"
        20250101 none "f" false).1 = .insertFailed ∧
    (handleAllocate c3Store (fun _ => 5) "virtual-Sal" "e" (.value 3) "u"
        20250101 none "f" false).2.budgets =
      c3Store.budgets ++ [materializedGoal "virtual-Sal" "u" 20250101 none "f"] ∧
    (handleAllocate c3Store (fun _ => 5) "virtual-Sal" "e" (.value 3) "u"
        20250101 none "f" false).2.allocations = c3Store.allocations ∧
    (handleAllocate c3Store (fun _ => 5) "virtual-Sal" "e" (.value 3) "u"
        20250101 none "f" false).2 ≠ c3Store :=
  handleAllocate_virtual_nonatomic_C10 c3Store (fun _ => 5) "virtual-Sal" "e"
    "u" 3 20250101 none "f" (by decide) (by decide) (by decide) (by decide)
    (by decide)

/-! ## Budget aggregation view (`BudgetAllocationBreakdown.fetchAllocations`)

The component fetches the budgets of a kind whose validity window
overlaps the selected month (server-side `start_date ≤ month end`, then a
client-side `end_date` check) and the month's transactions of the kind,
and combines them into a per-category map of planned and actual amounts:
each budget row *sets* the category's planned value (overwriting any
earlier row of the same category), each transaction adds to the actual
value, creating a planned-0 entry when the category has no budget. -/

/-- The budget rows `fetchAllocations` keeps: kind, scope, server-side
start-date bound, then the client-side overlap filter on `end_date`. -/
def bbBudgets (store : Store) (userId : String) (scope : Option String)
    (type : String) (monthStartStr monthEndStr : Int) : List Budget :=
  (store.budgets.filter fun b =>
    b.type == type && decide (b.start_date ≤ monthEndStr) &&
      applyScopeFilter userId scope b.user_id b.household_id).filter fun b =>
    match b.end_date with
    | none => true
    | some e => decide (monthStartStr ≤ e)

/-- The transactions `fetchAllocations` keeps: kind, scope, dated within
the selected month. -/
def bbTxns (store : Store) (userId : String) (scope : Option String)
    (type : String) (monthStartStr monthEndStr : Int) : List Txn :=
  store.transactions.filter fun t =>
    t.type == type && decide (monthStartStr ≤ t.transaction_date) &&
      decide (t.transaction_date ≤ monthEndStr) &&
      applyScopeFilter userId scope t.user_id t.household_id

/-- Embeds the `allocationMap` construction of `fetchAllocations`: the
budget pass sets `(planned, 0)` per category — a later row of the same
category overwrites an earlier one — then the transaction pass adds each
amount to the category's actual component, creating a `(0, amount)` entry
for categories with no budget row. -/
def allocationMapBB (store : Store) (userId : String) (scope : Option String)
    (type : String) (monthStartStr monthEndStr : Int) :
    String → Option (Int × Int) :=
  (bbTxns store userId scope type monthStartStr monthEndStr).foldl
    (fun m t => fun c =>
      if t.category == c then
        match m t.category with
        | some pa => some (pa.1, pa.2 + t.amount)
        | none => some (0, t.amount)
      else m c)
    ((bbBudgets store userId scope type monthStartStr monthEndStr).foldl
      (fun m b => fun c =>
        if b.category == c then some (b.planned_amount, 0) else m c)
      (fun _ => none))

/-- Looking up a category after the budget pass yields the last matching
budget's `(planned, 0)` entry, or the initial value when none matches. -/
theorem budgetFold_lookup (bs : List Budget)
    (m : String → Option (Int × Int)) (c : String) :
    (bs.foldl (fun m b => fun c =>
        if b.category == c then some (b.planned_amount, 0) else m c) m) c =
      match (bs.filter fun b => b.category == c).getLast? with
      | some b => some (b.planned_amount, 0)
      | none => m c := by
  induction bs generalizing m with
  | nil => simp
  | cons b bs ih =>
    rw [List.foldl_cons, ih]
    cases hb : b.category == c with
    | true =>
      cases hL : (bs.filter fun x => x.category == c).getLast? <;>
        simp [List.filter_cons, hb, List.getLast?_cons, hL]
    | false => simp [List.filter_cons, hb]

/-- Looking up a category after the transaction pass: an existing entry
keeps its planned component and accumulates the matching amounts; an
absent entry is created with planned 0 exactly when a matching
transaction exists. -/
theorem txnFold_lookup (ts : List Txn) (m : String → Option (Int × Int))
    (c : String) :
    (ts.foldl (fun m t => fun c =>
        if t.category == c then
          match m t.category with
          | some pa => some (pa.1, pa.2 + t.amount)
          | none => some (0, t.amount)
        else m c) m) c =
      match m c with
      | some pa => some (pa.1, pa.2 +
          ((ts.filter fun t => t.category == c).map (·.amount)).sum)
      | none =>
        if (ts.filter fun t => t.category == c).isEmpty then none
        else some (0, ((ts.filter fun t => t.category == c).map (·.amount)).sum) := by
  induction ts generalizing m with
  | nil => cases hm : m c <;> simp [hm]
  | cons t ts ih =>
    rw [List.foldl_cons, ih]
    cases ht : t.category == c with
    | true =>
      have htc : t.category = c := by simpa using ht
      cases hm : m c with
      | some pa => simp [List.filter_cons, ht, htc, hm, add_assoc]
      | none => simp [List.filter_cons, ht, htc, hm]
    | false => cases hm : m c <;> simp [List.filter_cons, ht, hm]

/-- The claim-side planned amount for a category, read from the claim's
words: the sum of `planned_amount` over all budget goals of the kind and
scope, of that category, whose validity window overlaps the target month. -/
def claimedPlannedBB (store : Store) (userId : String) (scope : Option String)
    (type : String) (monthStartStr monthEndStr : Int) (c : String) : Int :=
  ((store.budgets.filter fun b =>
    b.type == type && (b.category == c) &&
      applyScopeFilter userId scope b.user_id b.household_id &&
      decide (b.start_date ≤ monthEndStr) &&
      (match b.end_date with
       | none => true
       | some e => decide (monthStartStr ≤ e))).map (·.planned_amount)).sum

/-- The C5 counterexample store: two expense goals of the same category
`"Food"`, planned 100 and 200, both valid over January 2025. -/
def c5Store : Store :=
  { transactions := [],
    budgets :=
      [ { id := "f1", user_id := "u", household_id := none, type := "expense",
          category := "Food", planned_amount := 100, month_year := 20250101,
          start_date := 20250101, end_date := none, interval := "Monthly" },
        { id := "f2", user_id := "u", household_id := none, type := "expense",
          category := "Food", planned_amount := 200, month_year := 20250101,
          start_date := 20250101, end_date := none, interval := "Monthly" } ],
    allocations := [] }

/-- C5 counterexample: with two overlapping `"Food"` goals planned 100 and
200, the aggregation view reports a planned amount of 200 (the later row
overwrites the earlier one) while the claimed sum is 300. -/
theorem planned_not_summed_C5_counterexample :
    (allocationMapBB c5Store "u" none "expense" 20250101 20250131 "Food").map
        Prod.fst = some 200 ∧
    claimedPlannedBB c5Store "u" none "expense" 20250101 20250131 "Food" = 300 ∧
    (allocationMapBB c5Store "u" none "expense" 20250101 20250131 "Food").map
        Prod.fst ≠
      some (claimedPlannedBB c5Store "u" none "expense" 20250101 20250131
        "Food") := by
  decide

/-- C5 (amended): the aggregation view's planned amount for a category is
the `planned_amount` of the last fetched budget goal of the kind and scope
with that category whose validity window overlaps the target month — later
matching rows overwrite earlier ones, values are not summed — and a
category with matching transactions but no matching goal gets planned 0. -/
theorem planned_is_last_goal_C5 (store : Store) (userId : String)
    (scope : Option String) (type : String) (monthStartStr monthEndStr : Int)
    (c : String) :
    (allocationMapBB store userId scope type monthStartStr monthEndStr c).map
        Prod.fst =
      match ((bbBudgets store userId scope type monthStartStr
          monthEndStr).filter fun b => b.category == c).getLast? with
      | some b => some b.planned_amount
      | none =>
        if ((bbTxns store userId scope type monthStartStr
            monthEndStr).filter fun t => t.category == c).isEmpty then none
        else some 0 := by
  rw [allocationMapBB, txnFold_lookup, budgetFold_lookup]
  cases hL : ((bbBudgets store userId scope type monthStartStr
      monthEndStr).filter fun b => b.category == c).getLast? with
  | some b => simp [hL]
  | none =>
    cases hE : ((bbTxns store userId scope type monthStartStr
        monthEndStr).filter fun t => t.category == c).isEmpty <;> simp [hL, hE]

/-- What the breakdown view renders in place of a percentage. -/
inductive PercentDisplay where
  | percent (actual planned : Int)
  | noBudget
deriving DecidableEq, Repr

/-- Embeds the `isOverBudget` flag of the breakdown view renderer. -/
def isOverBudgetBB (planned actual : Int) : Bool :=
  decide (actual > planned) && decide (planned > 0)

/-- Embeds the percentage slot of the breakdown view renderer: a
percentage figure when a positive planned amount exists, the literal
no-budget text otherwise. -/
def percentDisplayBB (planned actual : Int) : PercentDisplay :=
  if planned > 0 then .percent actual planned else .noBudget

/-- C9: a category is flagged over-budget exactly when its actual amount
exceeds its planned amount and the planned amount is positive; a category
with planned amount zero renders the no-budget text instead of a
percentage and is never flagged over-budget, regardless of its actual
amount. -/
theorem overbudget_nobudget_C9 :
    (∀ planned actual : Int,
      isOverBudgetBB planned actual = true ↔ actual > planned ∧ planned > 0) ∧
    (∀ actual : Int, percentDisplayBB 0 actual = .noBudget ∧
      isOverBudgetBB 0 actual = false) := by
  constructor
  · intro planned actual
    simp [isOverBudgetBB]
  · intro actual
    refine ⟨rfl, ?_⟩
    simp [isOverBudgetBB]

end BudgetTracker
